import Mathlib

/-!
Verification of the validated scalar types of `pgdatatypes_plus`
(`src/twid.rs`, `src/email_addr.rs`).

Strings are modelled as `List Char` (Rust `&str` is a UTF-8 sequence of
Unicode scalar values; `Char` in Lean is a Unicode scalar value).
Rust's `str::len` counts UTF-8 bytes, so it is modelled by `byteLen`
below, not by `List.length`.
-/

deriving instance DecidableEq for Except

/-- Number of bytes of the UTF-8 encoding of a Unicode scalar value.
Models the contribution of one `char` to Rust's `str::len`. -/
def charUtf8Len (c : Char) : Nat :=
  if c.val < 0x80 then 1
  else if c.val < 0x800 then 2
  else if c.val < 0x10000 then 3
  else 4

/-- Rust `str::len`: the length in bytes of the UTF-8 encoding. -/
def byteLen (s : List Char) : Nat :=
  (s.map charUtf8Len).sum

/-- Model of Rust `char::to_uppercase` (the Unicode uppercase mapping, which
may expand one scalar to several). The full Unicode table is not reproduced;
this model is exact on:
  * ASCII (`a`-`z` map to `A`-`Z`, every other ASCII scalar is fixed), and
  * every scalar whose uppercase mapping produces ASCII output, which are
    exactly U+0131 `ı` → `I`, U+017F `ſ` → `S`, U+00DF `ß` → `SS`, and the
    Latin ligatures U+FB00..U+FB06 (`ﬀ ﬁ ﬂ ﬃ ﬄ ﬅ ﬆ`).
Every remaining scalar is modelled as fixed. Under the real mapping each such
scalar produces output containing at least one non-ASCII scalar, and under
this model it stays non-ASCII, so both sides fail the validators' ASCII
letter/digit checks identically; the model and the real mapping therefore
agree on every string either of them lets a validator accept, and on the
accept/reject boundary itself. -/
def rustCharToUppercase (c : Char) : List Char :=
  if 'a' ≤ c && c ≤ 'z' then [Char.ofNat (c.toNat - 32)]
  else if c = 'ı' then ['I']
  else if c = 'ſ' then ['S']
  else if c = 'ß' then ['S', 'S']
  else if c = 'ﬀ' then ['F', 'F']
  else if c = 'ﬁ' then ['F', 'I']
  else if c = 'ﬂ' then ['F', 'L']
  else if c = 'ﬃ' then ['F', 'F', 'I']
  else if c = 'ﬄ' then ['F', 'F', 'L']
  else if c = 'ﬅ' then ['S', 'T']
  else if c = 'ﬆ' then ['S', 'T']
  else [c]

/-- Rust `str::to_uppercase`: concatenation of the per-scalar uppercase
mappings (`str::to_uppercase` has no context-dependent cases). -/
def rustToUppercase (s : List Char) : List Char :=
  (s.map rustCharToUppercase).flatten

/-- ASCII uppercasing of one character, the effect of `to_uppercase` on an
ASCII scalar: `a`-`z` map to `A`-`Z`, everything else is fixed. Used to state
case-insensitivity claims. -/
def asciiUpperChar (c : Char) : Char :=
  if 'a' ≤ c && c ≤ 'z' then Char.ofNat (c.toNat - 32) else c

/-- From `src/twid.rs` `get_region_number`: maps Taiwan region letters to
their numbers, following the allocation order `ABCDEFGHJKLMNPQRSTUVXYWZIO`. -/
def get_region_number (region : Char) : Option Nat :=
  match region with
  | 'A' => some 10
  | 'B' => some 11
  | 'C' => some 12
  | 'D' => some 13
  | 'E' => some 14
  | 'F' => some 15
  | 'G' => some 16
  | 'H' => some 17
  | 'I' => some 34
  | 'J' => some 18
  | 'K' => some 19
  | 'L' => some 20
  | 'M' => some 21
  | 'N' => some 22
  | 'O' => some 35
  | 'P' => some 23
  | 'Q' => some 24
  | 'R' => some 25
  | 'S' => some 26
  | 'T' => some 27
  | 'U' => some 28
  | 'V' => some 29
  | 'W' => some 32
  | 'X' => some 30
  | 'Y' => some 31
  | 'Z' => some 33
  | _ => none

/-- The checksum coefficient array `[1, 9, 8, 7, 6, 5, 4, 3, 2, 1, 1]` from
`is_valid_taiwan_id` in `src/twid.rs`. -/
def checksum_coefficients : List Nat := [1, 9, 8, 7, 6, 5, 4, 3, 2, 1, 1]

/-- The weighted sum `digits.iter().zip(coefficients).map(|(d, c)| d * c).sum()`
from `is_valid_taiwan_id`. `zip` truncates to the shorter list, exactly as
Rust's `Iterator::zip` does. The source computes in `u16`; every reachable sum
is at most `11 * 81 < 2 ^ 16`, so `Nat` arithmetic coincides. -/
def weighted_sum (digits : List Nat) : Nat :=
  ((digits.zip checksum_coefficients).map (fun p => p.1 * p.2)).sum

/-- From `src/twid.rs` `is_valid_taiwan_id`. Faithful points: the length
check is on the BYTES of the original input (`input.len() != 10`), while the
character checks run over `input.to_uppercase().chars()`. `chars[0]` and
`chars[1]` are modelled by pattern matching; the empty branches are
unreachable (a 10-byte string holds at least 3 scalars, and uppercasing never
shrinks a scalar to nothing), so the `false` they return is never observed.
`Char.isAlpha` / `Char.isDigit` are the ASCII predicates, matching
`is_ascii_alphabetic` / `is_ascii_digit`. `c.toNat - 48` is
`c.to_digit(10).unwrap()` on the already-checked ASCII digits. -/
def is_valid_taiwan_id (input : List Char) : Bool :=
  if byteLen input ≠ 10 then false
  else
    match rustToUppercase input with
    | [] => false
    | c0 :: rest =>
      if !c0.isAlpha then false
      else if !(rest.all (fun c => c.isDigit)) then false
      else
        match rest.head? with
        | none => false
        | some gender_char =>
          if !(gender_char == '1' || gender_char == '2' ||
               gender_char == '8' || gender_char == '9') then false
          else
            match get_region_number c0 with
            | none => false
            | some region_code =>
              let digits := region_code / 10 :: region_code % 10 ::
                rest.map (fun c => c.toNat - 48)
              weighted_sum digits % 10 == 0

/-- The `Twid` struct from `src/twid.rs`: a single owned string field. -/
structure Twid where
  data : List Char
  deriving DecidableEq

/-- `impl FromStr for Twid`: reject unless `is_valid_taiwan_id`, otherwise
store `s.to_uppercase()`. -/
def Twid.from_str (s : List Char) : Except String Twid :=
  if !is_valid_taiwan_id s then .error ("invalid Taiwan National ID format")
  else .ok ⟨rustToUppercase s⟩

/-- `impl Display for Twid` / `cast_twid_to_text`: the stored data verbatim. -/
def twid_to_string (t : Twid) : List Char :=
  t.data

/-- The `#[pg_extern]` function `is_valid_twid` from `src/twid.rs`. -/
def is_valid_twid (input : List Char) : Bool :=
  is_valid_taiwan_id input

/-- From `src/twid.rs` `get_gender_from_twid`. The guard `twid.len() < 2`
is a BYTE-length test; past it the source runs `twid.chars().nth(1).unwrap()`,
which panics when the string holds fewer than two scalars. The panic is
modelled as `none`; every normal return is `some`. -/
def get_gender_from_twid (twid : List Char) : Option (List Char) :=
  if byteLen twid < 2 then some ['U']
  else
    match twid.get? 1 with
    | none => none
    | some second_char =>
      match second_char with
      | '1' => some (['M'])
      | '2' => some (['F'])
      | '8' => some (['M'])
      | '9' => some (['F'])
      | _ => some (['U'])

/-- The `#[pg_extern]` function `twid_gender` from `src/twid.rs`. -/
def twid_gender (input : Twid) : Option (List Char) :=
  get_gender_from_twid input.data

/-- The `#[pg_extern]` function `twid_region` from `src/twid.rs`:
`data.chars().next().unwrap_or('?')` as a one-character string. -/
def twid_region (input : Twid) : List Char :=
  match input.data.head? with
  | some c => [c]
  | none => ['?']

/-- ASCII control characters (plus DEL), the class the email grammar rejects
anywhere in an address (this includes newlines). -/
def isCtrlChar (c : Char) : Bool :=
  c.val < 0x20 || c.val == 0x7f

/-- ASCII alphanumeric. -/
def isAsciiAlnum (c : Char) : Bool :=
  c.isAlpha || c.isDigit

/-- Splits a list at the LAST occurrence of `sep`: returns the part before it
and the part after it, or `none` when `sep` does not occur. -/
def splitLastAt (sep : Char) (s : List Char) : Option (List Char × List Char) :=
  let rev := s.reverse
  if rev.any (fun c => c == sep) then
    some (((rev.dropWhile (fun c => c ≠ sep)).tail).reverse,
          (rev.takeWhile (fun c => c ≠ sep)).reverse)
  else none

/-- Splits a list on every occurrence of `sep` (auxiliary accumulator form). -/
def splitOnSepAux (sep : Char) : List Char → List Char → List (List Char)
  | [], acc => [acc.reverse]
  | c :: rest, acc =>
    if c = sep then acc.reverse :: splitOnSepAux sep rest []
    else splitOnSepAux sep rest (c :: acc)

/-- Splits a list on every occurrence of `sep`; `n + 1` separators give
`n + 2` pieces, empty pieces included. -/
def splitOnSep (sep : Char) (s : List Char) : List (List Char) :=
  splitOnSepAux sep s []

/-- One decimal octet of a dotted-quad IPv4 literal: one to three ASCII
digits whose value is at most 255. -/
def validIPv4Octet (l : List Char) : Bool :=
  !l.isEmpty && l.length ≤ 3 && l.all (fun c => c.isDigit) &&
    (l.foldl (fun n c => n * 10 + (c.toNat - 48)) 0) ≤ 255

/-- A dotted-quad IPv4 literal body: exactly four valid octets. -/
def validIPv4 (s : List Char) : Bool :=
  match splitOnSep '.' s with
  | [a, b, c, d] => validIPv4Octet a && validIPv4Octet b &&
                    validIPv4Octet c && validIPv4Octet d
  | _ => false

/-- An IPv6 literal body: colon-separated groups of at most four hex digits,
at most eight groups, at least one colon. -/
def validIPv6 (s : List Char) : Bool :=
  s.any (fun c => c == ':') &&
  s.all (fun c => c.isDigit || ('a' ≤ c && c ≤ 'f') ||
                  ('A' ≤ c && c ≤ 'F') || c == ':') &&
  (splitOnSep ':' s).length ≤ 8 &&
  (splitOnSep ':' s).all (fun g => g.length ≤ 4)

/-- One label of a host-name domain: non-empty, at most 63 characters, ASCII
alphanumerics and hyphens only, neither starting nor ending with a hyphen. -/
def validDomainLabel (l : List Char) : Bool :=
  !l.isEmpty && l.length ≤ 63 &&
  l.all (fun c => isAsciiAlnum c || c == '-') &&
  (match l.head? with
   | some c => c ≠ '-'
   | none => true) &&
  (match l.getLast? with
   | some c => c ≠ '-'
   | none => true)

/-- The domain side of an address: either a bracketed IPv4/IPv6 literal, or a
non-empty dot-separated sequence of valid labels of bounded total length. -/
def validEmailDomain (d : List Char) : Bool :=
  if d.isEmpty then false
  else if d.head? == some '[' && d.getLast? == some ']' && 2 ≤ d.length then
    validIPv4 (d.drop 1).dropLast || validIPv6 (d.drop 1).dropLast
  else
    d.length ≤ 255 && (splitOnSep '.' d).all validDomainLabel

/-- The local-part side of an address: non-empty, at most 64 characters, not
a quoted form (no leading double quote), and free of control characters,
spaces and further at-signs. -/
def validEmailLocalPart (l : List Char) : Bool :=
  !l.isEmpty && l.length ≤ 64 &&
  l.head? ≠ some '"' &&
  l.all (fun c => !isCtrlChar c && c ≠ ' ' && c ≠ '@')

/-- Modelled from the spec: the email-grammar predicate of the external
`validator` crate (`s.validate_email()` in `src/email_addr.rs`), whose code
is not part of this repository. The spec describes it as a black-box
predicate enforcing: non-empty local part, an `@` separator, non-empty
domain with label length at most 63 and a bound on the overall domain
length, rejection of leading/trailing/embedded control characters
(including newlines), support for bracketed IPv4/IPv6 literal domains, and
rejection of quoted local-part forms; the split is at the last `@`, so an
address with a doubled `@@` fails because its local part would contain `@`.
Internationalized (non-ASCII) domains are outside the spec's scope and are
rejected here. -/
def validate_email (s : List Char) : Bool :=
  match splitLastAt '@' s with
  | none => false
  | some (lp, dp) => validEmailLocalPart lp && validEmailDomain dp

/-- The `EmailAddr` struct from `src/email_addr.rs`: a single owned string
field. -/
structure EmailAddr where
  data : List Char
  deriving DecidableEq

/-- `impl FromStr for EmailAddr`: reject unless the grammar predicate holds,
otherwise store the input text unchanged (`s.to_string()`). -/
def EmailAddr.from_str (s : List Char) : Except String EmailAddr :=
  if !validate_email s then .error ("invalid email address format")
  else .ok ⟨s⟩

/-- `impl Display for EmailAddr` / `cast_emailaddr_to_text`: the stored data
verbatim. -/
def emailaddr_to_string (e : EmailAddr) : List Char :=
  e.data

/-- UTF-8 encoding of one scalar, as the list of its byte values. -/
def charUtf8Bytes (c : Char) : List Nat :=
  let n := c.toNat
  if n < 0x80 then [n]
  else if n < 0x800 then [0xC0 + n / 0x40, 0x80 + n % 0x40]
  else if n < 0x10000 then
    [0xE0 + n / 0x1000, 0x80 + n / 0x40 % 0x40, 0x80 + n % 0x40]
  else
    [0xF0 + n / 0x40000, 0x80 + n / 0x1000 % 0x40,
     0x80 + n / 0x40 % 0x40, 0x80 + n % 0x40]

/-- The UTF-8 byte sequence of a string, i.e. the buffer Rust's `String`
comparison operates on. -/
def strUtf8Bytes (s : List Char) : List Nat :=
  (s.map charUtf8Bytes).flatten

/-- Lexicographic comparison of byte sequences, the order `Ord` on Rust
`String` uses (byte-wise comparison of the UTF-8 buffers). -/
def byteLexCompare : List Nat → List Nat → Ordering
  | [], [] => .eq
  | [], _ :: _ => .lt
  | _ :: _, [] => .gt
  | a :: as, b :: bs =>
    if a < b then .lt
    else if b < a then .gt
    else byteLexCompare as bs

/-- `impl Ord for EmailAddr` from `src/email_addr.rs`:
`self.data.cmp(&other.data)`, the byte-wise comparison of the stored
strings' UTF-8 buffers. -/
def EmailAddr.cmp (x y : EmailAddr) : Ordering :=
  byteLexCompare (strUtf8Bytes x.data) (strUtf8Bytes y.data)

example : is_valid_taiwan_id ("A123456789".data) = true := by decide
example : is_valid_taiwan_id ("a123456789".data) = true := by decide
example : is_valid_taiwan_id ("F131232216".data) = true := by decide
example : is_valid_taiwan_id ("A12345678".data) = false := by decide
example : is_valid_taiwan_id ("A323456789".data) = false := by decide
example : is_valid_taiwan_id ("ı10000003".data) = true := by decide
example : byteLen ("ı10000003".data) = 10 := by decide
example : rustToUppercase ("ı10000003".data) = ("I10000003".data) := by decide
example : is_valid_taiwan_id ("I10000003".data) = false := by decide
example : get_gender_from_twid ("é".data) = none := by decide
example : validate_email ("user@a.com".data) = true := by decide
example : validate_email ("email@here.com".data) = true := by decide
example : validate_email ("email@[127.0.0.1]".data) = true := by decide
example : validate_email ("email@[127.0.0.256]".data) = false := by decide
example : validate_email ("".data) = false := by decide
example : validate_email ("abc".data) = false := by decide
example : validate_email ("abc@".data) = false := by decide
example : validate_email ("a @x.cz".data) = false := by decide
example : validate_email ("something@@somewhere.com".data) = false := by decide
example : validate_email ("abc@bar".data) = true := by decide
example : validate_email ("abc@.com".data) = false := by decide
example : validate_email ("trailingdot@shouldfail.com.".data) = false := by decide
example : validate_email ("User@Domain.Com".data) = true := by decide
example : validate_email ("a@b.com\n".data) = false := by decide
example : EmailAddr.cmp ⟨("user@a.com".data)⟩ ⟨("user@b.com".data)⟩ = .lt := by decide
example : EmailAddr.cmp ⟨("aaa@same.com".data)⟩ ⟨("zzz@same.com".data)⟩ = .lt := by decide

/-! Helper lemmas about ASCII characters and the uppercase model. -/

lemma isDigit_toNat (c : Char) (h : c.isDigit = true) :
    48 ≤ c.toNat ∧ c.toNat ≤ 57 := by
  simp only [Char.isDigit, Bool.and_eq_true, decide_eq_true_eq] at h
  exact h

lemma charUtf8Len_ascii (c : Char) (h : c.toNat < 128) : charUtf8Len c = 1 := by
  unfold charUtf8Len
  rw [if_pos]
  exact h

lemma byteLen_cons (c : Char) (s : List Char) :
    byteLen (c :: s) = charUtf8Len c + byteLen s := by
  simp [byteLen]

lemma byteLen_ascii (s : List Char) (h : ∀ c ∈ s, c.toNat < 128) :
    byteLen s = s.length := by
  induction s with
  | nil => rfl
  | cons c cs ih =>
    rw [byteLen_cons, charUtf8Len_ascii c (h c (List.mem_cons_self c cs)),
        ih (fun d hd => h d (List.mem_cons_of_mem c hd)), List.length_cons]
    omega

lemma rustCharToUppercase_ascii (c : Char) (h : c.toNat < 128) :
    rustCharToUppercase c = [asciiUpperChar c] := by
  have hne : ∀ d : Char, 128 ≤ d.toNat → ¬ c = d := fun d hd he => by
    subst he; omega
  unfold rustCharToUppercase asciiUpperChar
  by_cases hb : ('a' ≤ c && c ≤ 'z') = true
  · rw [if_pos hb, if_pos hb]
  · rw [if_neg hb, if_neg hb, if_neg (hne 'ı' (by decide)),
        if_neg (hne 'ſ' (by decide)), if_neg (hne 'ß' (by decide)),
        if_neg (hne 'ﬀ' (by decide)), if_neg (hne 'ﬁ' (by decide)),
        if_neg (hne 'ﬂ' (by decide)), if_neg (hne 'ﬃ' (by decide)),
        if_neg (hne 'ﬄ' (by decide)), if_neg (hne 'ﬅ' (by decide)),
        if_neg (hne 'ﬆ' (by decide))]

lemma asciiUpperChar_digit (c : Char) (h : c.isDigit = true) :
    asciiUpperChar c = c := by
  have hd := isDigit_toNat c h
  unfold asciiUpperChar
  rw [if_neg]
  intro hb
  rw [Bool.and_eq_true, decide_eq_true_eq, decide_eq_true_eq] at hb
  have h97 : ('a').toNat ≤ c.toNat := hb.1
  have : ('a').toNat = 97 := rfl
  omega

lemma rustCharToUppercase_digit (c : Char) (h : c.isDigit = true) :
    rustCharToUppercase c = [c] := by
  have hd := isDigit_toNat c h
  rw [rustCharToUppercase_ascii c (by omega), asciiUpperChar_digit c h]

lemma rustToUppercase_cons (c : Char) (s : List Char) :
    rustToUppercase (c :: s) = rustCharToUppercase c ++ rustToUppercase s := by
  simp [rustToUppercase]

lemma rustToUppercase_digits (s : List Char)
    (h : s.all (fun c => c.isDigit) = true) : rustToUppercase s = s := by
  induction s with
  | nil => rfl
  | cons c cs ih =>
    simp only [List.all_cons, Bool.and_eq_true] at h
    rw [rustToUppercase_cons, rustCharToUppercase_digit c h.1, ih h.2]
    rfl

lemma get_region_number_isAlpha (c : Char) (rc : Nat)
    (h : get_region_number c = some rc) : c.isAlpha = true := by
  unfold get_region_number at h
  split at h <;> first | decide | exact absurd h (by simp)

/-- C3: for every input of exactly 10 ASCII characters whose first character
maps (case-insensitively) through the region table, whose characters 1-9 are
ASCII digits, and whose gender digit is one of 1, 2, 8, 9, Taiwan-ID
validation succeeds iff the weighted sum of the 11-digit sequence
`[rc / 10, rc % 10, digit 1, ..., digit 9]` with weights
`[1, 9, 8, 7, 6, 5, 4, 3, 2, 1, 1]` is divisible by 10. -/
theorem taiwan_id_valid_iff_checksum (c0 g : Char) (ds : List Char) (rc : Nat)
    (hc0 : c0.toNat < 128)
    (hreg : get_region_number (asciiUpperChar c0) = some rc)
    (hlen : ds.length = 8)
    (hdig : (g :: ds).all (fun c => c.isDigit) = true)
    (hgen : g = '1' ∨ g = '2' ∨ g = '8' ∨ g = '9') :
    is_valid_taiwan_id (c0 :: g :: ds) = true ↔
      weighted_sum (rc / 10 :: rc % 10 ::
        (g :: ds).map (fun c => c.toNat - 48)) % 10 = 0 := by
  have hdall : ∀ c ∈ (g :: ds), c.toNat < 128 := by
    intro c hc
    rw [List.all_eq_true] at hdig
    have := isDigit_toNat c (hdig c hc)
    omega
  have hbl : byteLen (c0 :: g :: ds) = 10 := by
    rw [byteLen_cons, charUtf8Len_ascii c0 hc0, byteLen_ascii _ hdall]
    simp [hlen]
  have hup : rustToUppercase (c0 :: g :: ds) = asciiUpperChar c0 :: g :: ds := by
    rw [rustToUppercase_cons, rustCharToUppercase_ascii c0 hc0,
        rustToUppercase_digits _ hdig]
    rfl
  have halpha := get_region_number_isAlpha _ _ hreg
  have hgbool : (g == '1' || g == '2' || g == '8' || g == '9') = true := by
    rcases hgen with h | h | h | h <;> subst h <;> decide
  unfold is_valid_taiwan_id
  rw [hup, hbl]
  simp only [ne_eq, not_true_eq_false, if_false, ite_false, halpha,
    Bool.not_true, Bool.false_eq_true, hdig, List.head?_cons, hgbool, hreg]
  simp [beq_iff_eq]

/-- C3 witness: the theorem instantiated at `A123456789`, every hypothesis
discharged by evaluation. -/
theorem taiwan_id_valid_iff_checksum_witness :
    is_valid_taiwan_id ('A' :: '1' :: ['2', '3', '4', '5', '6', '7', '8', '9']) = true ↔
      weighted_sum (10 / 10 :: 10 % 10 ::
        (('1' :: ['2', '3', '4', '5', '6', '7', '8', '9']).map
          (fun c => c.toNat - 48))) % 10 = 0 :=
  taiwan_id_valid_iff_checksum 'A' '1' ['2', '3', '4', '5', '6', '7', '8', '9'] 10
    (by decide) (by decide) (by decide) (by decide) (Or.inl rfl)

/-- C6: the region-letter table returns exactly the 26 documented values on
the uppercase letters, and `none` on every character outside `A`-`Z`. -/
theorem region_table_contents :
    (get_region_number 'A' = some 10 ∧ get_region_number 'B' = some 11 ∧
     get_region_number 'C' = some 12 ∧ get_region_number 'D' = some 13 ∧
     get_region_number 'E' = some 14 ∧ get_region_number 'F' = some 15 ∧
     get_region_number 'G' = some 16 ∧ get_region_number 'H' = some 17 ∧
     get_region_number 'J' = some 18 ∧ get_region_number 'K' = some 19 ∧
     get_region_number 'L' = some 20 ∧ get_region_number 'M' = some 21 ∧
     get_region_number 'N' = some 22 ∧ get_region_number 'P' = some 23 ∧
     get_region_number 'Q' = some 24 ∧ get_region_number 'R' = some 25 ∧
     get_region_number 'S' = some 26 ∧ get_region_number 'T' = some 27 ∧
     get_region_number 'U' = some 28 ∧ get_region_number 'V' = some 29 ∧
     get_region_number 'W' = some 32 ∧ get_region_number 'X' = some 30 ∧
     get_region_number 'Y' = some 31 ∧ get_region_number 'Z' = some 33 ∧
     get_region_number 'I' = some 34 ∧ get_region_number 'O' = some 35) ∧
    (∀ c : Char,
      c ∉ (['A', 'B', 'C', 'D', 'E', 'F', 'G', 'H', 'I', 'J', 'K', 'L', 'M',
            'N', 'O', 'P', 'Q', 'R', 'S', 'T', 'U', 'V', 'W', 'X', 'Y', 'Z'] :
            List Char) → get_region_number c = none) := by
  constructor
  · decide
  · intro c h
    unfold get_region_number
    split <;> simp_all

/-- C6 witness: the `none` half applied at a concrete character outside
`A`-`Z`. -/
theorem region_table_contents_witness : get_region_number 'a' = none :=
  region_table_contents.2 'a' (by decide)

/-- C7: every accepted input is stored uppercased, so an input and its
lowercase variant parse to equal values. -/
theorem twid_canonical_uppercase :
    (∀ (s : List Char) (t : Twid),
      Twid.from_str s = .ok t → t.data = rustToUppercase s) ∧
    (Twid.from_str ("a123456789".data) = .ok ⟨("A123456789".data)⟩ ∧
     Twid.from_str ("A123456789".data) = .ok ⟨("A123456789".data)⟩) := by
  constructor
  · intro s t h
    unfold Twid.from_str at h
    split at h
    · simp at h
    · injection h with h2
      rw [← h2]
  · exact ⟨by decide, by decide⟩

/-- C7 witness: the canonical-form half applied at `a123456789`. -/
theorem twid_canonical_uppercase_witness :
    (⟨("A123456789".data)⟩ : Twid).data = rustToUppercase ("a123456789".data) :=
  twid_canonical_uppercase.1 ("a123456789".data) ⟨("A123456789".data)⟩ (by decide)

/-- C10: `Twid` parsing succeeds exactly when `is_valid_twid` holds, and a
failed parse returns the one generic error and no value. -/
theorem twid_parse_iff_is_valid :
    ∀ s : List Char,
      ((Twid.from_str s).isOk = true ↔ is_valid_twid s = true) ∧
      (is_valid_twid s = false →
        Twid.from_str s = .error ("invalid Taiwan National ID format")) := by
  intro s
  unfold Twid.from_str is_valid_twid
  by_cases h : is_valid_taiwan_id s = true
  · simp [h, Except.isOk, Except.toBool]
  · simp only [Bool.not_eq_true] at h
    simp [h, Except.isOk, Except.toBool]

/-- C10 witness: the failure half applied at a concrete invalid input. -/
theorem twid_parse_iff_is_valid_witness :
    Twid.from_str ("bad".data) = .error ("invalid Taiwan National ID format") :=
  (twid_parse_iff_is_valid ("bad".data)).2 (by decide)

/-- C5: the `EmailAddr` comparator is the byte-wise lexicographic comparison
of the stored strings, and the two documented ordering vectors hold. -/
theorem emailaddr_cmp_lexicographic :
    (∀ a b : EmailAddr,
      EmailAddr.cmp a b = byteLexCompare (strUtf8Bytes a.data) (strUtf8Bytes b.data)) ∧
    (EmailAddr.from_str ("user@a.com".data) = .ok ⟨("user@a.com".data)⟩ ∧
     EmailAddr.from_str ("user@b.com".data) = .ok ⟨("user@b.com".data)⟩ ∧
     EmailAddr.cmp ⟨("user@a.com".data)⟩ ⟨("user@b.com".data)⟩ = .lt) ∧
    (EmailAddr.from_str ("aaa@same.com".data) = .ok ⟨("aaa@same.com".data)⟩ ∧
     EmailAddr.from_str ("zzz@same.com".data) = .ok ⟨("zzz@same.com".data)⟩ ∧
     EmailAddr.cmp ⟨("aaa@same.com".data)⟩ ⟨("zzz@same.com".data)⟩ = .lt) := by
  refine ⟨fun a b => rfl, ⟨?_, ?_, ?_⟩, ⟨?_, ?_, ?_⟩⟩ <;> decide

/-- C8: an accepted email is stored verbatim (case preserved), so two
accepted inputs differing only in case are distinct values. -/
theorem emailaddr_case_preserving :
    (∀ (s : List Char) (e : EmailAddr),
      EmailAddr.from_str s = .ok e → e.data = s) ∧
    (EmailAddr.from_str ("User@Domain.Com".data) = .ok ⟨("User@Domain.Com".data)⟩ ∧
     EmailAddr.from_str ("user@domain.com".data) = .ok ⟨("user@domain.com".data)⟩ ∧
     (⟨("User@Domain.Com".data)⟩ : EmailAddr) ≠ ⟨("user@domain.com".data)⟩) := by
  constructor
  · intro s e h
    unfold EmailAddr.from_str at h
    split at h
    · simp at h
    · injection h with h2
      rw [← h2]
  · exact ⟨by decide, by decide, by decide⟩

/-- C8 witness: the verbatim-storage half applied at `User@Domain.Com`. -/
theorem emailaddr_case_preserving_witness :
    (⟨("User@Domain.Com".data)⟩ : EmailAddr).data = ("User@Domain.Com".data) :=
  emailaddr_case_preserving.1 ("User@Domain.Com".data)
    ⟨("User@Domain.Com".data)⟩ (by decide)

/-- C1 fails on the code: the 10-BYTE input `ı10000003` (U+0131 dotless i
followed by eight digits) passes validation, but the stored uppercased text
`I10000003` has nine characters and fails `is_valid_taiwan_id`, so a `Twid`
exists whose data does not pass the validator. -/
theorem twid_stored_value_fails_validator :
    Twid.from_str ("ı10000003".data) = .ok ⟨("I10000003".data)⟩ ∧
    is_valid_taiwan_id (Twid.data ⟨("I10000003".data)⟩) = false :=
  ⟨by decide, by decide⟩

/-- C2 fails on the code: the value parsed from `ı10000003` displays as
`I10000003`, and parsing that text back fails, so `from_text ∘ to_text` is
not the identity on parsed values. -/
theorem twid_roundtrip_fails :
    Twid.from_str ("ı10000003".data) = .ok ⟨("I10000003".data)⟩ ∧
    twid_to_string ⟨("I10000003".data)⟩ = ("I10000003".data) ∧
    Twid.from_str ("I10000003".data) =
      .error ("invalid Taiwan National ID format") :=
  ⟨by decide, rfl, by decide⟩

/-- C4 fails on the code: `ı10000003` is accepted by `Twid` parsing although
it has nine characters, not ten, and its character 0 is not an ASCII
letter. -/
theorem twid_accepts_nine_char_non_letter_input :
    Twid.from_str ("ı10000003".data) = .ok ⟨("I10000003".data)⟩ ∧
    ("ı10000003".data).length = 9 ∧
    ("ı10000003".data).head? = some 'ı' ∧
    Char.isAlpha 'ı' = false :=
  ⟨by decide, by decide, by decide, by decide⟩

/-- C9 fails on the code: on the one-character, two-byte string `é` the
gender extractor passes its byte-length guard and then panics (modelled as
`none`) instead of returning `U`, so it is not a total mapping; on validated
values it does return `M`/`F`/`U` as documented. -/
theorem gender_extractor_panics_on_two_byte_char :
    byteLen ("é".data) = 2 ∧ ("é".data).length = 1 ∧
    get_gender_from_twid ("é".data) = none ∧
    twid_gender ⟨("A123456789".data)⟩ = some ['M'] ∧
    twid_gender ⟨("A223456789".data)⟩ = some ['F'] ∧
    get_gender_from_twid ("A323456789".data) = some ['U'] :=
  ⟨by decide, by decide, by decide, by decide, by decide, by decide⟩
